import Mathlib

/-!
A shallow embedding of `deploy_cloud_run.py`, the single source file of this
repository, together with proofs of the specification's claims about it.

Python strings are modelled as `List Char`; the functions `lstripL`, `rstripL`,
`pyStrip`, `splitFirst` model the Python string operations `str.lstrip`,
`str.rstrip`, `str.strip` and `str.split(sep, 1)` used by the script (for the
ASCII whitespace characters Python strips).  The `.env` parser, the command
runner `run` and the orchestrator `main` are translated line by line from the
source; external command executions and the input file are parameters of a
`World`, and the observable behaviour (exit code, printed lines, which external
commands were invoked, the temporary file's lifecycle) is returned explicitly.
-/

set_option autoImplicit false

namespace DeployCloudRun

/-- Python strings, modelled as lists of characters. -/
abbrev PyStr := List Char

/-- The ASCII whitespace characters stripped by Python's `str.strip()`. -/
def pyIsSpace (c : Char) : Bool :=
  c = ' ' || c = '\t' || c = '\n' || c = '\r' || c = Char.ofNat 11 || c = Char.ofNat 12

/-- Python `str.lstrip()`: drop leading whitespace. -/
def lstripL (s : PyStr) : PyStr := s.dropWhile pyIsSpace

/-- Python `str.rstrip()`: drop trailing whitespace. -/
def rstripL (s : PyStr) : PyStr := (s.reverse.dropWhile pyIsSpace).reverse

/-- Python `str.strip()`: drop whitespace at both ends. -/
def pyStrip (s : PyStr) : PyStr := rstripL (lstripL s)

/-- Python `s.split(sep, 1)` for a one-character separator: `none` when the
separator does not occur (so `sep in s` is `(splitFirst sep s).isSome`),
otherwise the parts before and after the first occurrence. -/
def splitFirst (sep : Char) : PyStr → Option (PyStr × PyStr)
  | [] => none
  | c :: rest =>
    if c = sep then some ([], rest)
    else (splitFirst sep rest).map (fun p => (c :: p.1, p.2))

/-- The double-quote character. -/
def dq : Char := Char.ofNat 34

/-- The single-quote character. -/
def sq : Char := Char.ofNat 39

/-- The quote-stripping step of `parse_env_file` (lines 57-60): if the value
starts and ends with `"`, or starts and ends with `'`, take `value[1:-1]`. -/
def stripQuotes (v : PyStr) : PyStr :=
  if (v.head? = some dq && (v.getLast? = some dq)) ||
     (v.head? = some sq && (v.getLast? = some sq)) then
    (v.drop 1).dropLast
  else v

/-- Lines 54-61: if the (comment-stripped) line contains `=`, split it at the
first `=`, strip key and value, and strip a matching outer quote pair from the
value; otherwise no entry. -/
def parseKV (line1 : PyStr) : Option (PyStr × PyStr) :=
  match splitFirst '=' line1 with
  | none => none
  | some (k, v) => some (pyStrip k, stripQuotes (pyStrip v))

/-- The body of the `for line in f` loop of `parse_env_file` (lines 48-61),
applied to one line: `none` when the line adds no entry, otherwise the
key-value pair stored into `env_vars`.  The stripped line is skipped when
empty or starting with `#`; otherwise it is truncated at its first `#` (and
re-stripped) before the `KEY=VALUE` split. -/
def processLine (line0 : PyStr) : Option (PyStr × PyStr) :=
  let line := pyStrip line0
  if line = [] then none
  else if line.head? = some '#' then none
  else
    parseKV (match splitFirst '#' line with
      | some p => pyStrip p.1
      | none => line)

/-- A Python `dict` of strings, as an association list with unique keys in
insertion order. -/
abbrev EnvDict := List (PyStr × PyStr)

/-- Python `d[k] = v`: overwrite in place if the key is present, else append. -/
def dictSet (d : EnvDict) (k v : PyStr) : EnvDict :=
  match d with
  | [] => [(k, v)]
  | (k', v') :: rest => if k' = k then (k, v) :: rest else (k', v') :: dictSet rest k v

/-- Python `d.get(k)`: the value bound to `k`, if any. -/
def dictGet (d : EnvDict) (k : PyStr) : Option PyStr :=
  match d with
  | [] => none
  | (k', v') :: rest => if k' = k then some v' else dictGet rest k

/-- One iteration of the `for line in f` loop: store the line's entry, if
any, into the dictionary. -/
def foldLine (d : EnvDict) (l : PyStr) : EnvDict :=
  match processLine l with
  | some (k, v) => dictSet d k v
  | none => d

/-- The loop of `parse_env_file` over the file's lines (lines 47-61): fold each
line's entry into the dictionary. -/
def parseLines (lines : List PyStr) : EnvDict :=
  lines.foldl foldLine []

/-- `parse_env_file` (lines 41-62), with the file system abstracted: the file's
content is `some lines`, or `none` when `os.path.exists` is false.  Returns the
dictionary together with the lines printed (the error report for a missing
file). -/
def parse_env_file (content : Option (List PyStr)) : EnvDict × List String :=
  match content with
  | none => ([], ["Error: .env.local not found."])
  | some lines => (parseLines lines, [])

/-- What the operating system does with one external command: either the
executable is missing (`subprocess.run` raises `FileNotFoundError`, whose
message is `emsg`), or the command completes with an exit status and the text
it wrote to its standard output and standard error streams. -/
inductive CmdBehavior where
  | notFound (emsg : String)
  | completes (returncode : Int) (stdout stderr : String)
  deriving DecidableEq

/-- The `subprocess.CompletedProcess` fields `run` inspects.  `stdout` and
`stderr` are `none` (Python `None`) unless `capture_output=True` was passed. -/
structure CmdResult where
  returncode : Int
  stdout : Option String
  stderr : Option String
  deriving DecidableEq

/-- How a call to `run` ends: returning the completed-process result to the
caller, or terminating the whole program via `sys.exit code`. -/
inductive RunOutcome where
  | done (r : CmdResult)
  | exited (code : Int)
  deriving DecidableEq

/-- A call to `run`'s observable effect: its outcome plus what it printed. -/
structure RunEffect where
  outcome : RunOutcome
  printed : List String
  deriving DecidableEq

/-- Python `a or b` for an optional string `a` (`None` and `""` are falsy). -/
def pyOrS (a : Option String) (b : String) : String :=
  match a with
  | none => b
  | some s => if s = "" then b else s

/-- Line 31: `result.stderr or result.stdout or "Command failed."`. -/
def failMsg (r : CmdResult) : String :=
  pyOrS r.stderr (pyOrS r.stdout "Command failed.")

/-- The command runner `run` (lines 20-38), with the spawned process's
behaviour `b` supplied by the environment: builds the `CompletedProcess`
result (streams captured only when `capture`), and on `check` with a non-zero
status prints the diagnostic only when `capture` is false and exits with the
child's status; a missing executable prints `Command not found: ...` and exits
with status 1. -/
def run (b : CmdBehavior) (check capture : Bool) : RunEffect :=
  match b with
  | .notFound emsg => ⟨.exited 1, ["Command not found: " ++ emsg]⟩
  | .completes rc out err =>
    let result : CmdResult :=
      ⟨rc, if capture then some out else none, if capture then some err else none⟩
    if check && rc != 0 then
      let o := failMsg result
      ⟨.exited rc, if capture then [] else [o]⟩
    else
      ⟨.done result, []⟩

/-- Python `str.strip()` on a whole string value (used for the describe
step's captured output, line 112). -/
def stripS (s : String) : String := String.mk (pyStrip s.data)

/-- The world `main` runs in: the content of `.env.local` (or `none` when the
file does not exist), and the behaviour of the three external `gcloud`
invocations (build submit, run deploy, run services describe). -/
structure World where
  envLines : Option (List PyStr)
  build : CmdBehavior
  deploy : CmdBehavior
  describe : CmdBehavior

/-- The observable result of the `try` block of `main` (lines 81-118):
`exitCode = some c` when a `sys.exit c` escaped the block, `none` when it fell
through normally; which of the three steps were invoked; the lines printed. -/
structure BodyResult where
  exitCode : Option Int
  printed : List String
  ranBuild : Bool
  ranDeploy : Bool
  ranDescribe : Bool
  deriving DecidableEq

/-- The fallback service URL printed on line 117. -/
def fallbackUrl : String := "  https://openwork-217388700222.us-central1.run.app"

/-- The `try` block of `main` (lines 81-118): build, deploy, then describe and
print the service URL (or the fallback when the captured, stripped output is
empty).  Every `sys.exit` raised inside `run` escapes as `exitCode = some c`. -/
def tryBody (w : World) : BodyResult :=
  let banner1 := "\n[1/3] Building image in Google Cloud Build (this may take a few minutes)..."
  let r1 := run w.build true false
  match r1.outcome with
  | .exited c => ⟨some c, banner1 :: r1.printed, true, false, false⟩
  | .done _ =>
    let banner2 := "\n[2/3] Deploying to Cloud Run..."
    let r2 := run w.deploy true false
    match r2.outcome with
    | .exited c => ⟨some c, banner1 :: r1.printed ++ banner2 :: r2.printed, true, true, false⟩
    | .done _ =>
      let banner3 := "\n[3/3] Service URL:"
      let r3 := run w.describe true true
      match r3.outcome with
      | .exited c =>
        ⟨some c, banner1 :: r1.printed ++ banner2 :: r2.printed ++ banner3 :: r3.printed,
          true, true, true⟩
      | .done r =>
        let url := stripS (pyOrS r.stdout "")
        let tail :=
          if url ≠ "" then
            ["  " ++ url, "\nDeployment successful. DevPost link should work."]
          else
            [fallbackUrl, "\nDeployment finished. Check Cloud Run console if needed."]
        ⟨none, banner1 :: r1.printed ++ banner2 :: r2.printed ++ banner3 :: r3.printed ++ tail,
          true, true, true⟩

/-- The observable result of a whole `main` run: the process exit code, the
printed lines, which external steps were invoked, and the temporary YAML
file's lifecycle (whether it was ever created, and whether it still exists
when the process terminates). -/
structure MainResult where
  exitCode : Int
  printed : List String
  ranBuild : Bool
  ranDeploy : Bool
  ranDescribe : Bool
  tempCreated : Bool
  tempAtEnd : Bool
  deriving DecidableEq

/-- The missing-credential warning printed on line 75. -/
def geminiWarning : String :=
  "Warning: GEMINI_API_KEY not set in .env.local. Chat API will return 500 until set."

/-- Python truthiness of `env_vars.get(k)` (line 74): `None` and `""` are
falsy. -/
def pyTruthy (o : Option PyStr) : Bool :=
  match o with
  | none => false
  | some s => s ≠ []

/-- `main` (lines 65-121).  Prints the header, parses `.env.local`, exits with
code 1 on an empty mapping; otherwise warns when `GEMINI_API_KEY` is missing
or empty, writes the temporary YAML file, runs the `try` block, and in the
`finally` clause removes the temporary file (also when a `sys.exit` from the
build, deploy or describe step is propagating); the process exit code is the
escaped `sys.exit` code, or 0 on normal completion. -/
def main (w : World) : MainResult :=
  let header := ["Project: limitless-ai-483404 (Limitless.ai)",
    "Target URL: https://openwork-217388700222.us-central1.run.app",
    "Reading env from .env.local..."]
  let pe := parse_env_file w.envLines
  let env_vars := pe.1
  if env_vars = [] then
    ⟨1, header ++ pe.2 ++ ["No environment variables found. Exiting."],
      false, false, false, false, false⟩
  else
    let warn := if pyTruthy (dictGet env_vars "GEMINI_API_KEY".data) then []
      else [geminiWarning]
    let tempExists := true
    let body := tryBody w
    let tempAfterFinally := if tempExists then false else tempExists
    ⟨body.exitCode.getD 0, header ++ pe.2 ++ warn ++ body.printed,
      body.ranBuild, body.ranDeploy, body.ranDescribe, tempExists, tempAfterFinally⟩

/-- Modelled from the spec: the serialization of the environment mapping to
the temporary intermediate file (line 80 calls `yaml.dump(env_vars, f,
default_flow_style=False)` from the external PyYAML library, which is not part
of this repository).  The spec describes the intermediate file as "a
structured (indented key-value) file representing the same mapping; same
mapping content, different serialization", i.e. one `key: value` line per
entry, the value taken verbatim from the mapping. -/
def serializeEnv (env : EnvDict) : List String :=
  env.map (fun kv => String.mk kv.1 ++ ": " ++ String.mk kv.2)

/-! Specification-side definitions used only to state claims. -/

/-- A well-formed `KEY=VALUE` input line, as the spec describes it: the key
text, a single `=`, the value text (which may itself contain `=`, and may
carry its own surrounding quotes), and an optional trailing `#`-comment. -/
def renderLine (key value : PyStr) (comment : Option PyStr) : PyStr :=
  key ++ '=' :: (value ++ (match comment with
    | none => []
    | some c => '#' :: c))

/-- The value of the last value-bearing line for key `k` in a list of lines,
if any: the binding the spec says duplicate keys resolve to. -/
def lastEntryFor (k : PyStr) : List PyStr → Option PyStr
  | [] => none
  | l :: ls =>
    match lastEntryFor k ls with
    | some v => some v
    | none =>
      match processLine l with
      | some (k', v) => if k' = k then some v else none
      | none => none

/-! Helper lemmas about the Python string primitives. -/

theorem lstripL_nil : lstripL [] = [] := rfl

theorem lstripL_cons (c : Char) (t : PyStr) :
    lstripL (c :: t) = if pyIsSpace c then lstripL t else c :: t := by
  simp [lstripL, List.dropWhile_cons]

theorem lstripL_append_pos (a b : PyStr) (h : lstripL a ≠ []) :
    lstripL (a ++ b) = lstripL a ++ b := by
  induction a with
  | nil => exact absurd rfl h
  | cons c t ih =>
    by_cases hc : pyIsSpace c
    · rw [lstripL_cons, if_pos hc] at h
      rw [List.cons_append, lstripL_cons, if_pos hc, lstripL_cons, if_pos hc, ih h]
    · rw [List.cons_append, lstripL_cons, if_neg hc, lstripL_cons, if_neg hc,
        List.cons_append]

theorem lstripL_append_nil (a b : PyStr) (h : lstripL a = []) :
    lstripL (a ++ b) = lstripL b := by
  induction a with
  | nil => rfl
  | cons c t ih =>
    by_cases hc : pyIsSpace c
    · rw [List.cons_append, lstripL_cons, if_pos hc]
      exact ih (by rwa [lstripL_cons, if_pos hc] at h)
    · rw [lstripL_cons, if_neg hc] at h
      exact absurd h (by simp)

theorem lstripL_cons_nonspace (c : Char) (t : PyStr) (h : pyIsSpace c = false) :
    lstripL (c :: t) = c :: t := by
  rw [lstripL_cons, if_neg (by simp [h])]

theorem rstripL_eq_reverse (s : PyStr) : rstripL s = (lstripL s.reverse).reverse := rfl

theorem rstripL_append_pos (a b : PyStr) (h : rstripL b ≠ []) :
    rstripL (a ++ b) = a ++ rstripL b := by
  have hb : lstripL b.reverse ≠ [] := by
    intro he
    exact h (by rw [rstripL_eq_reverse, he, List.reverse_nil])
  rw [rstripL_eq_reverse, List.reverse_append, lstripL_append_pos _ _ hb,
    List.reverse_append, List.reverse_reverse, rstripL_eq_reverse]

theorem rstripL_cons_nonspace (c : Char) (t : PyStr) (h : pyIsSpace c = false) :
    rstripL (c :: t) = c :: rstripL t := by
  by_cases ht : rstripL t = []
  · have hrev : lstripL t.reverse = [] := by
      have := congrArg List.reverse ht
      rwa [rstripL_eq_reverse, List.reverse_reverse, List.reverse_nil] at this
    rw [ht, rstripL_eq_reverse, List.reverse_cons, lstripL_append_nil _ _ hrev,
      lstripL_cons_nonspace _ _ h]
    rfl
  · have : rstripL ([c] ++ t) = [c] ++ rstripL t := rstripL_append_pos [c] t ht
    simpa using this

theorem lstripL_idem (s : PyStr) : lstripL (lstripL s) = lstripL s := by
  induction s with
  | nil => rfl
  | cons c t ih =>
    by_cases hc : pyIsSpace c
    · rw [lstripL_cons, if_pos hc, ih]
    · rw [lstripL_cons, if_neg hc, lstripL_cons, if_neg hc]

theorem rstripL_idem (s : PyStr) : rstripL (rstripL s) = rstripL s := by
  rw [rstripL_eq_reverse, rstripL_eq_reverse, List.reverse_reverse, lstripL_idem]

theorem lstripL_rstripL_comm (s : PyStr) : lstripL (rstripL s) = rstripL (lstripL s) := by
  induction s with
  | nil => rfl
  | cons c t ih =>
    by_cases hc : pyIsSpace c
    · by_cases ht : rstripL t = []
      · have hrev : lstripL t.reverse = [] := by
          have := congrArg List.reverse ht
          rwa [rstripL_eq_reverse, List.reverse_reverse, List.reverse_nil] at this
        have h1 : rstripL (c :: t) = [] := by
          rw [rstripL_eq_reverse, List.reverse_cons, lstripL_append_nil _ _ hrev,
            lstripL_cons, if_pos hc, lstripL_nil, List.reverse_nil]
        rw [h1, lstripL_cons, if_pos hc, ← ih, ht]
      · have h1 : rstripL (c :: t) = c :: rstripL t := by
          have := rstripL_append_pos [c] t ht
          simpa using this
        rw [h1, lstripL_cons, if_pos hc, lstripL_cons, if_pos hc, ih]
    · have hc' : pyIsSpace c = false := by simpa using hc
      rw [rstripL_cons_nonspace _ _ hc', lstripL_cons_nonspace _ _ hc',
        lstripL_cons_nonspace _ _ hc', rstripL_cons_nonspace _ _ hc']

theorem pyStrip_lstripL (s : PyStr) : pyStrip (lstripL s) = pyStrip s := by
  unfold pyStrip
  rw [lstripL_idem]

theorem pyStrip_rstripL (s : PyStr) : pyStrip (rstripL s) = pyStrip s := by
  unfold pyStrip
  rw [lstripL_rstripL_comm, rstripL_idem, ← lstripL_rstripL_comm, lstripL_rstripL_comm]

theorem mem_of_mem_lstripL {x : Char} {s : PyStr} (h : x ∈ lstripL s) : x ∈ s :=
  (List.dropWhile_sublist pyIsSpace).mem h

theorem mem_of_mem_rstripL {x : Char} {s : PyStr} (h : x ∈ rstripL s) : x ∈ s := by
  rw [rstripL_eq_reverse, List.mem_reverse] at h
  exact List.mem_reverse.mp (mem_of_mem_lstripL h)

theorem splitFirst_eq_none (sep : Char) (s : PyStr) (h : sep ∉ s) :
    splitFirst sep s = none := by
  induction s with
  | nil => rfl
  | cons c t ih =>
    have hc : ¬c = sep := fun e => h (e ▸ List.mem_cons_self c t)
    rw [splitFirst, if_neg hc, ih (fun hm => h (List.mem_cons_of_mem c hm))]
    rfl

theorem splitFirst_append (sep : Char) (a b : PyStr) (h : sep ∉ a) :
    splitFirst sep (a ++ sep :: b) = some (a, b) := by
  induction a with
  | nil => simp [splitFirst]
  | cons c t ih =>
    have hc : ¬c = sep := fun e => h (e ▸ List.mem_cons_self c t)
    rw [List.cons_append, splitFirst, if_neg hc,
      ih (fun hm => h (List.mem_cons_of_mem c hm))]
    rfl

theorem pyStrip_append_sep (key tail : PyStr) (sep : Char) (hsep : pyIsSpace sep = false)
    (h : lstripL key ≠ []) :
    pyStrip (key ++ sep :: tail) = lstripL key ++ sep :: rstripL tail := by
  unfold pyStrip
  have h1 : rstripL (sep :: tail) = sep :: rstripL tail := rstripL_cons_nonspace _ _ hsep
  rw [lstripL_append_pos _ _ h,
    rstripL_append_pos _ _ (by rw [h1]; exact List.cons_ne_nil _ _), h1]

theorem lstripL_of_pyStrip_ne_nil (s : PyStr) (h : pyStrip s ≠ []) : lstripL s ≠ [] := by
  intro he
  exact h (by unfold pyStrip; rw [he]; rfl)

theorem parseKV_split (A V' : PyStr) (h : '=' ∉ A) :
    parseKV (A ++ '=' :: V') = some (pyStrip A, stripQuotes (pyStrip V')) := by
  unfold parseKV
  rw [splitFirst_append _ _ _ h]

/-- The heart of claim C4: `processLine` on any well-formed rendered line
recovers the trimmed key and the comment-stripped, trimmed, unquoted value. -/
theorem processLine_renderLine (key value : PyStr) (comment : Option PyStr)
    (hk : pyStrip key ≠ []) (hkEq : '=' ∉ key) (hkHash : '#' ∉ key)
    (hvHash : '#' ∉ value) :
    processLine (renderLine key value comment) =
      some (pyStrip key, stripQuotes (pyStrip value)) := by
  have hlk : lstripL key ≠ [] := lstripL_of_pyStrip_ne_nil key hk
  have hAEq : '=' ∉ lstripL key := fun hm => hkEq (mem_of_mem_lstripL hm)
  have hAHash : '#' ∉ lstripL key := fun hm => hkHash (mem_of_mem_lstripL hm)
  have hVHash : '#' ∉ rstripL value := fun hm => hvHash (mem_of_mem_rstripL hm)
  obtain ⟨c, t, hA⟩ : ∃ c t, lstripL key = c :: t := by
    cases hAs : lstripL key with
    | nil => exact absurd hAs hlk
    | cons c t => exact ⟨c, t, rfl⟩
  have hcHash : ¬c = '#' := fun e => hAHash (by rw [hA, e]; exact List.mem_cons_self _ _)
  have hlA : lstripL (c :: t) = c :: t := by rw [← hA, lstripL_idem]
  have hkv : parseKV (c :: (t ++ '=' :: rstripL value)) =
      some (pyStrip key, stripQuotes (pyStrip value)) := by
    have h0 := parseKV_split (c :: t) (rstripL value) (by rw [← hA]; exact hAEq)
    have e1 : pyStrip (c :: t) = pyStrip key := by rw [← hA, pyStrip_lstripL]
    rw [e1, pyStrip_rstripL] at h0
    simpa using h0
  cases comment with
  | none =>
    have hline : pyStrip (renderLine key value none) =
        c :: (t ++ '=' :: rstripL value) := by
      unfold renderLine
      simp only [List.append_nil]
      rw [pyStrip_append_sep key value '=' (by decide) hlk, hA]
      simp
    have hno : '#' ∉ c :: (t ++ '=' :: rstripL value) := by
      have h1 : '#' ∉ (c :: t) ++ '=' :: rstripL value := by
        intro hm
        rcases List.mem_append.mp hm with h1 | h2
        · exact hAHash (hA ▸ h1)
        · rcases List.mem_cons.mp h2 with h3 | h4
          · exact absurd h3.symm (by decide)
          · exact hVHash h4
      simpa using h1
    simp only [processLine, hline, List.head?_cons]
    rw [if_neg (List.cons_ne_nil _ _), if_neg (by simpa using hcHash),
      splitFirst_eq_none _ _ hno, hkv]
  | some co =>
    have hco : rstripL ('#' :: co) = '#' :: rstripL co :=
      rstripL_cons_nonspace _ _ (by decide)
    have hline : pyStrip (renderLine key value (some co)) =
        c :: (t ++ '=' :: (value ++ '#' :: rstripL co)) := by
      unfold renderLine
      rw [pyStrip_append_sep key (value ++ '#' :: co) '=' (by decide) hlk,
        rstripL_append_pos _ _ (by rw [hco]; exact List.cons_ne_nil _ _), hco, hA]
      simp
    have hnoA : '#' ∉ (c :: t) ++ '=' :: value := by
      intro hm
      rcases List.mem_append.mp hm with h1 | h2
      · exact hAHash (hA ▸ h1)
      · rcases List.mem_cons.mp h2 with h3 | h4
        · exact absurd h3.symm (by decide)
        · exact hvHash h4
    have hsplit : splitFirst '#' (c :: (t ++ '=' :: (value ++ '#' :: rstripL co))) =
        some (c :: (t ++ '=' :: value), rstripL co) := by
      have h0 := splitFirst_append '#' ((c :: t) ++ '=' :: value) (rstripL co) hnoA
      simpa [List.append_assoc] using h0
    have hInner : pyStrip (c :: (t ++ '=' :: value)) = c :: (t ++ '=' :: rstripL value) := by
      have h0 := pyStrip_append_sep (c :: t) value '='
        (by decide) (by rw [hlA]; exact List.cons_ne_nil _ _)
      rw [hlA] at h0
      simpa using h0
    simp only [processLine, hline, List.head?_cons]
    rw [if_neg (List.cons_ne_nil _ _), if_neg (by simpa using hcHash), hsplit]
    simp only []
    rw [hInner, hkv]

/-! Helper lemmas about the dictionary and the orchestrator model. -/

theorem dictGet_dictSet_self (d : EnvDict) (k v : PyStr) :
    dictGet (dictSet d k v) k = some v := by
  induction d with
  | nil => simp [dictSet, dictGet]
  | cons p rest ih =>
    obtain ⟨k', v'⟩ := p
    by_cases h : k' = k
    · simp [dictSet, dictGet, h]
    · simp [dictSet, dictGet, h, ih]

theorem dictGet_dictSet_ne (d : EnvDict) (k k' v : PyStr) (h : k' ≠ k) :
    dictGet (dictSet d k' v) k = dictGet d k := by
  induction d with
  | nil => simp [dictSet, dictGet, h]
  | cons p rest ih =>
    obtain ⟨k0, v0⟩ := p
    by_cases h0 : k0 = k'
    · simp [dictSet, dictGet, h0, h, ih]
    · simp [dictSet, dictGet, h0, ih]

theorem dictGet_foldl (lines : List PyStr) (k : PyStr) :
    ∀ d : EnvDict, dictGet (lines.foldl foldLine d) k =
      match lastEntryFor k lines with
      | some v => some v
      | none => dictGet d k := by
  induction lines with
  | nil => intro d; rfl
  | cons l ls ih =>
    intro d
    rw [List.foldl_cons, ih]
    cases hlast : lastEntryFor k ls with
    | some v => simp [lastEntryFor, hlast]
    | none =>
      simp only [lastEntryFor, hlast]
      cases hpl : processLine l with
      | none => simp [foldLine, hpl]
      | some kv =>
        obtain ⟨k', v⟩ := kv
        by_cases hk : k' = k
        · simp [foldLine, hpl, hk, dictGet_dictSet_self]
        · simp [foldLine, hpl, hk, dictGet_dictSet_ne _ _ _ _ hk]

theorem tryBody_ranBuild (w : World) : (tryBody w).ranBuild = true := by
  cases h1 : (run w.build true false).outcome <;>
    cases h2 : (run w.deploy true false).outcome <;>
      cases h3 : (run w.describe true true).outcome <;>
        simp [tryBody, h1, h2, h3]

theorem stripS_pyOrS (out : String) : stripS (pyOrS (some out) "") = stripS out := by
  by_cases h : out = "" <;> simp [pyOrS, h]

theorem envLines_isSome_of_parse_ne_nil (w : World)
    (h : (parse_env_file w.envLines).1 ≠ []) : ∃ ls, w.envLines = some ls := by
  cases he : w.envLines with
  | none => rw [he] at h; simp [parse_env_file] at h
  | some ls => exact ⟨ls, rfl⟩

/-! The claims. -/

/-- C1: in every run in which the temporary env-var YAML file is created
(i.e. the parsed mapping is non-empty), the file is absent from the
filesystem when the process terminates — on every exit path, normal success
as well as early termination from the build, deploy or describe step,
because the `finally` clause removes it even while a `sys.exit` propagates. -/
theorem claim_C1_temp_file_absent_on_exit (w : World)
    (h : (parse_env_file w.envLines).1 ≠ []) :
    (main w).tempCreated = true ∧ (main w).tempAtEnd = false := by
  simp [main, h]

/-- Witness for C1 at a concrete world (here the build step fails). -/
theorem claim_C1_temp_file_absent_on_exit_witness :
    (main ⟨some ["A=1".data], CmdBehavior.completes 9 "" "", CmdBehavior.completes 0 "" "",
        CmdBehavior.completes 0 "" ""⟩).tempCreated = true ∧
    (main ⟨some ["A=1".data], CmdBehavior.completes 9 "" "", CmdBehavior.completes 0 "" "",
        CmdBehavior.completes 0 "" ""⟩).tempAtEnd = false :=
  claim_C1_temp_file_absent_on_exit _ (by decide)

/-- C2: if the build command exits non-zero, the deploy and describe commands
are never invoked and the process exit code equals the build command's exit
code. -/
theorem claim_C2_build_failure_short_circuits (w : World) (rc : Int) (out err : String)
    (henv : (parse_env_file w.envLines).1 ≠ [])
    (hb : w.build = CmdBehavior.completes rc out err) (hrc : rc ≠ 0) :
    (main w).ranDeploy = false ∧ (main w).ranDescribe = false ∧
      (main w).exitCode = rc := by
  simp [main, henv, tryBody, hb, run, hrc]

/-- Witness for C2: a build exiting with status 9. -/
theorem claim_C2_build_failure_short_circuits_witness :
    (main ⟨some ["A=1".data], CmdBehavior.completes 9 "" "", CmdBehavior.completes 0 "" "",
        CmdBehavior.completes 0 "" ""⟩).ranDeploy = false ∧
    (main ⟨some ["A=1".data], CmdBehavior.completes 9 "" "", CmdBehavior.completes 0 "" "",
        CmdBehavior.completes 0 "" ""⟩).ranDescribe = false ∧
    (main ⟨some ["A=1".data], CmdBehavior.completes 9 "" "", CmdBehavior.completes 0 "" "",
        CmdBehavior.completes 0 "" ""⟩).exitCode = 9 :=
  claim_C2_build_failure_short_circuits _ 9 "" "" (by decide) rfl (by decide)

/-- C3 counterexample: a checked, output-capturing command (exactly how the
describe step is run) fails with status 1 and a non-empty captured error
stream, yet the runner prints nothing at all — only under `capture=False` is
a diagnostic printed — so the claim that the runner always prints the most
informative diagnostic before exiting is false as stated. -/
theorem claim_C3_counterexample :
    (run (CmdBehavior.completes 1 "" "boom") true true).printed = [] ∧
    (run (CmdBehavior.completes 1 "" "boom") true true).outcome = RunOutcome.exited 1 := by
  decide

/-- C3 amended: with halt-on-failure enabled, a command completing with a
non-zero status always terminates the process with the child's exit code, but
the diagnostic is printed only when output is not captured — and in that case
the streams were not captured (they are Python `None`), so the printed
diagnostic is always the generic `Command failed.` message. -/
theorem claim_C3_amended (rc : Int) (out err : String) (capture : Bool) (h : rc ≠ 0) :
    (run (CmdBehavior.completes rc out err) true capture).outcome = RunOutcome.exited rc ∧
    (run (CmdBehavior.completes rc out err) true capture).printed =
      (if capture then [] else ["Command failed."]) := by
  cases capture <;> simp [run, failMsg, pyOrS, h]

/-- Witness for the amended C3 at a concrete failing command. -/
theorem claim_C3_amended_witness :
    (run (CmdBehavior.completes 5 "o" "e") true false).outcome = RunOutcome.exited 5 ∧
    (run (CmdBehavior.completes 5 "o" "e") true false).printed =
      (if false then [] else ["Command failed."]) :=
  claim_C3_amended 5 "o" "e" false (by decide)

/-- C4: every well-formed `KEY=VALUE` line — an optionally quoted value,
optionally followed by a `#` comment, with the key containing no `=` or `#`
and the value containing no `#` (the spec's documented limitation) — parses to
the single entry mapping the trimmed key to the comment-stripped, trimmed,
unquoted value; only the first `=` splits, so values containing `=` are
preserved intact. -/
theorem claim_C4_wellformed_line_parses (key value : PyStr) (comment : Option PyStr)
    (hk : pyStrip key ≠ []) (hkEq : '=' ∉ key) (hkHash : '#' ∉ key)
    (hvHash : '#' ∉ value) :
    parse_env_file (some [renderLine key value comment]) =
      ([(pyStrip key, stripQuotes (pyStrip value))], []) := by
  simp [parse_env_file, parseLines, foldLine,
    processLine_renderLine key value comment hk hkEq hkHash hvHash, dictSet]

/-- Witness for C4: a value containing `=`, with a trailing comment. -/
theorem claim_C4_wellformed_line_parses_witness :
    parse_env_file (some [renderLine "URL".data "https://x?a=1".data (some " note".data)]) =
      ([(pyStrip "URL".data, stripQuotes (pyStrip "https://x?a=1".data))], []) :=
  claim_C4_wellformed_line_parses "URL".data "https://x?a=1".data (some " note".data)
    (by decide) (by decide) (by decide) (by decide)

/-- C5 counterexample: serializing the mapping `{"A": "1", "B": "\"two\""}`
itself does not strip B's quotes — the serializer writes values verbatim, so
the content contains `A: 1` but not the claimed line `B: two`. -/
theorem claim_C5_counterexample :
    "A: 1" ∈ serializeEnv [("A".data, "1".data), ("B".data, "\"two\"".data)] ∧
    "B: two" ∉ serializeEnv [("A".data, "1".data), ("B".data, "\"two\"".data)] := by
  decide

/-- C5 amended: the outer quotes are stripped by the parser, not by the
serializer.  Serializing the literal mapping `{"A": "1", "B": "\"two\""}`
yields `A: 1` and `B: "two"` (quotes intact); serializing the mapping parsed
from the input lines `A=1` and `B="two"` yields `A: 1` and `B: two`. -/
theorem claim_C5_amended :
    serializeEnv [("A".data, "1".data), ("B".data, "\"two\"".data)] =
      ["A: 1", "B: \"two\""] ∧
    serializeEnv (parseLines ["A=1".data, "B=\"two\"".data]) = ["A: 1", "B: two"] := by
  decide

/-- C6: parsing a nonexistent file returns an empty mapping after reporting
an error (never an unhandled failure — the model is a total function), and
whenever the parsed mapping is empty (file missing or no entries) the program
exits with code 1. -/
theorem claim_C6_missing_or_empty_env :
    parse_env_file none = ([], ["Error: .env.local not found."]) ∧
    ∀ w : World, (parse_env_file w.envLines).1 = [] → (main w).exitCode = 1 := by
  refine ⟨rfl, ?_⟩
  intro w h
  simp [main, h]

/-- Witness for C6 at a concrete world whose env file is missing. -/
theorem claim_C6_missing_or_empty_env_witness :
    (main ⟨none, CmdBehavior.completes 0 "" "", CmdBehavior.completes 0 "" "",
        CmdBehavior.completes 0 "" ""⟩).exitCode = 1 :=
  claim_C6_missing_or_empty_env.2 _ (by decide)

/-- C7: for every non-empty parsed mapping in which `GEMINI_API_KEY` is
absent or bound to the empty string, the warning is emitted and the build
step is still invoked — the warning is non-fatal. -/
theorem claim_C7_gemini_warning_nonfatal (w : World)
    (henv : (parse_env_file w.envLines).1 ≠ [])
    (hkey : dictGet (parse_env_file w.envLines).1 "GEMINI_API_KEY".data = none ∨
      dictGet (parse_env_file w.envLines).1 "GEMINI_API_KEY".data = some []) :
    geminiWarning ∈ (main w).printed ∧ (main w).ranBuild = true := by
  have hfalse : pyTruthy (dictGet (parse_env_file w.envLines).1 "GEMINI_API_KEY".data)
      = false := by
    rcases hkey with h | h <;> simp [pyTruthy, h]
  constructor
  · simp [main, henv, hfalse]
  · simp [main, henv, tryBody_ranBuild]

/-- Witness for C7: a mapping without the key. -/
theorem claim_C7_gemini_warning_nonfatal_witness :
    geminiWarning ∈ (main ⟨some ["A=1".data], CmdBehavior.completes 0 "" "",
        CmdBehavior.completes 0 "" "", CmdBehavior.completes 0 "" ""⟩).printed ∧
    (main ⟨some ["A=1".data], CmdBehavior.completes 0 "" "",
        CmdBehavior.completes 0 "" "", CmdBehavior.completes 0 "" ""⟩).ranBuild = true :=
  claim_C7_gemini_warning_nonfatal _ (by decide) (Or.inl (by decide))

/-- C8: when the build and deploy steps succeed and the describe step
succeeds, the process exits 0; if the captured, trimmed describe output is
empty the program prints the hardcoded fallback URL and the "finished, check
console" message and not the success message; if it is non-empty the program
prints it as the confirmed URL together with the success message and not the
fallback message. -/
theorem claim_C8_describe_url_fallback (w : World) (ob eb od ed out err : String)
    (henv : (parse_env_file w.envLines).1 ≠ [])
    (hb : w.build = CmdBehavior.completes 0 ob eb)
    (hd : w.deploy = CmdBehavior.completes 0 od ed)
    (hs : w.describe = CmdBehavior.completes 0 out err) :
    (main w).exitCode = 0 ∧
    (stripS out = "" →
      fallbackUrl ∈ (main w).printed ∧
      "\nDeployment finished. Check Cloud Run console if needed." ∈ (main w).printed ∧
      "\nDeployment successful. DevPost link should work." ∉ (main w).printed) ∧
    (stripS out ≠ "" →
      ("  " ++ stripS out) ∈ (main w).printed ∧
      "\nDeployment successful. DevPost link should work." ∈ (main w).printed ∧
      "\nDeployment finished. Check Cloud Run console if needed." ∉ (main w).printed) := by
  obtain ⟨ls, hls⟩ := envLines_isSome_of_parse_ne_nil w henv
  rw [hls] at henv
  have henv' : parseLines ls ≠ [] := by simpa [parse_env_file] using henv
  have hne : "\nDeployment finished. Check Cloud Run console if needed." ≠
      "  " ++ stripS out := by
    intro he
    have hd2 : ("\nDeployment finished. Check Cloud Run console if needed." : String).data =
        ' ' :: ' ' :: (stripS out).data := congrArg String.data he
    have h3 : (("\nDeployment finished. Check Cloud Run console if needed." : String).data).head?
        = some ' ' := congrArg List.head? hd2
    exact absurd h3 (by decide)
  refine ⟨?_, ?_, ?_⟩
  · simp [main, hls, parse_env_file, henv', tryBody, hb, hd, hs, run]
  · intro hu
    cases hg : pyTruthy (dictGet (parseLines ls) "GEMINI_API_KEY".data)
    · have hmain : (main w).printed = ["Project: limitless-ai-483404 (Limitless.ai)",
          "Target URL: https://openwork-217388700222.us-central1.run.app",
          "Reading env from .env.local...", geminiWarning,
          "\n[1/3] Building image in Google Cloud Build (this may take a few minutes)...",
          "\n[2/3] Deploying to Cloud Run...", "\n[3/3] Service URL:",
          fallbackUrl, "\nDeployment finished. Check Cloud Run console if needed."] := by
        simp [main, hls, parse_env_file, henv', tryBody, hb, hd, hs, run,
          stripS_pyOrS, hu, hg]
      rw [hmain]
      decide
    · have hmain : (main w).printed = ["Project: limitless-ai-483404 (Limitless.ai)",
          "Target URL: https://openwork-217388700222.us-central1.run.app",
          "Reading env from .env.local...",
          "\n[1/3] Building image in Google Cloud Build (this may take a few minutes)...",
          "\n[2/3] Deploying to Cloud Run...", "\n[3/3] Service URL:",
          fallbackUrl, "\nDeployment finished. Check Cloud Run console if needed."] := by
        simp [main, hls, parse_env_file, henv', tryBody, hb, hd, hs, run,
          stripS_pyOrS, hu, hg]
      rw [hmain]
      decide
  · intro hu
    cases hg : pyTruthy (dictGet (parseLines ls) "GEMINI_API_KEY".data)
    · have hmain : (main w).printed = ["Project: limitless-ai-483404 (Limitless.ai)",
          "Target URL: https://openwork-217388700222.us-central1.run.app",
          "Reading env from .env.local...", geminiWarning,
          "\n[1/3] Building image in Google Cloud Build (this may take a few minutes)...",
          "\n[2/3] Deploying to Cloud Run...", "\n[3/3] Service URL:",
          "  " ++ stripS out, "\nDeployment successful. DevPost link should work."] := by
        simp [main, hls, parse_env_file, henv', tryBody, hb, hd, hs, run,
          stripS_pyOrS, hu, hg]
      rw [hmain]
      refine ⟨by simp, by simp, ?_⟩
      intro hmem
      simp only [List.mem_cons, List.not_mem_nil, or_false] at hmem
      rcases hmem with h | h | h | h | h | h | h | h | h
      all_goals first
        | exact absurd h (by decide)
        | exact hne h
    · have hmain : (main w).printed = ["Project: limitless-ai-483404 (Limitless.ai)",
          "Target URL: https://openwork-217388700222.us-central1.run.app",
          "Reading env from .env.local...",
          "\n[1/3] Building image in Google Cloud Build (this may take a few minutes)...",
          "\n[2/3] Deploying to Cloud Run...", "\n[3/3] Service URL:",
          "  " ++ stripS out, "\nDeployment successful. DevPost link should work."] := by
        simp [main, hls, parse_env_file, henv', tryBody, hb, hd, hs, run,
          stripS_pyOrS, hu, hg]
      rw [hmain]
      refine ⟨by simp, by simp, ?_⟩
      intro hmem
      simp only [List.mem_cons, List.not_mem_nil, or_false] at hmem
      rcases hmem with h | h | h | h | h | h | h | h
      all_goals first
        | exact absurd h (by decide)
        | exact hne h

/-- Witness for C8: a describe step whose captured output is whitespace
only, so the stripped URL is empty and the fallback is printed. -/
theorem claim_C8_describe_url_fallback_witness :
    (main ⟨some ["A=1".data], CmdBehavior.completes 0 "b" "", CmdBehavior.completes 0 "d" "",
        CmdBehavior.completes 0 "  " ""⟩).exitCode = 0 ∧
    (stripS "  " = "" →
      fallbackUrl ∈ (main ⟨some ["A=1".data], CmdBehavior.completes 0 "b" "",
        CmdBehavior.completes 0 "d" "", CmdBehavior.completes 0 "  " ""⟩).printed ∧
      "\nDeployment finished. Check Cloud Run console if needed." ∈
        (main ⟨some ["A=1".data], CmdBehavior.completes 0 "b" "",
          CmdBehavior.completes 0 "d" "", CmdBehavior.completes 0 "  " ""⟩).printed ∧
      "\nDeployment successful. DevPost link should work." ∉
        (main ⟨some ["A=1".data], CmdBehavior.completes 0 "b" "",
          CmdBehavior.completes 0 "d" "", CmdBehavior.completes 0 "  " ""⟩).printed) ∧
    (stripS "  " ≠ "" →
      ("  " ++ stripS "  ") ∈ (main ⟨some ["A=1".data], CmdBehavior.completes 0 "b" "",
        CmdBehavior.completes 0 "d" "", CmdBehavior.completes 0 "  " ""⟩).printed ∧
      "\nDeployment successful. DevPost link should work." ∈
        (main ⟨some ["A=1".data], CmdBehavior.completes 0 "b" "",
          CmdBehavior.completes 0 "d" "", CmdBehavior.completes 0 "  " ""⟩).printed ∧
      "\nDeployment finished. Check Cloud Run console if needed." ∉
        (main ⟨some ["A=1".data], CmdBehavior.completes 0 "b" "",
          CmdBehavior.completes 0 "d" "", CmdBehavior.completes 0 "  " ""⟩).printed) :=
  claim_C8_describe_url_fallback _ "b" "" "d" "" "  " "" (by decide) rfl rfl rfl

/-- C9: when the same key appears on several value-bearing lines, the parsed
mapping binds it to the value from the last such line: the binding equals
`lastEntryFor`, the value of the key's last value-bearing line, so later
lines silently overwrite earlier ones. -/
theorem claim_C9_last_line_wins (lines : List PyStr) (k v : PyStr)
    (h : lastEntryFor k lines = some v) :
    dictGet (parseLines lines) k = some v := by
  unfold parseLines
  rw [dictGet_foldl lines k []]
  simp [h]

/-- Witness for C9: `X` bound three times, the last value wins. -/
theorem claim_C9_last_line_wins_witness :
    dictGet (parseLines ["X=1".data, "X=2".data, "Y=3".data, "X=4".data]) "X".data =
      some "4".data :=
  claim_C9_last_line_wins _ "X".data "4".data (by decide)

/-- C10: a line whose value is exactly one double-quote character, such as
`K="`, binds the key to the empty string: the single character passes both
the starts-with and ends-with checks and `value[1:-1]` removes it from both
ends. -/
theorem claim_C10_single_quote_value_empty :
    parse_env_file (some ["K=\"".data]) = ([("K".data, [])], []) := by
  decide

end DeployCloudRun
